import Mathlib

/-!
Shallow embedding of `zerver/management/commands/register_server.py`
(the `register_server` Django management command of Zulip).

The command registers a self-hosted server with the push-notification
bouncer service and optionally rotates the shared secret.  External
collaborators (Django settings, `input()`, `django.utils.crypto.
get_random_string`, the HTTP session, and the `crudini` subprocess used to
persist a rotated key) are modelled as injected values in `Env`; the
control flow of `Command.handle` and
`Command._request_push_notification_bouncer_url` is translated line by
line.  A run produces an `Outcome` (how the Python call terminates), an
ordered trace of observable `Event`s, and the final `Settings` (to track
any mutation of the process-wide configuration).
-/

set_option autoImplicit false

/-- Mirror of the Django settings fields read (and, in one branch, written)
by the command.  `ZULIP_ORG_ID` / `ZULIP_ORG_KEY` model Python falsiness of
the secrets by the empty string; `PUSH_NOTIFICATION_BOUNCER_URL` is `none`
when the setting is Python `None`. -/
structure Settings where
  DEVELOPMENT : Bool
  ZULIP_ORG_ID : String
  ZULIP_ORG_KEY : String
  PUSH_NOTIFICATION_BOUNCER_URL : Option String
  EXTERNAL_URI_SCHEME : String
  EXTERNAL_HOST : String
  ZULIP_ADMINISTRATOR : String
  deriving DecidableEq, Repr

/-- The two boolean command-line flags declared in `add_arguments`. -/
structure Options where
  agree_to_terms_of_service : Bool
  rotate_key : Bool
  deriving DecidableEq, Repr

/-- JSON values that can occur in the bouncer's response bodies for the
fields the command reads (`created`, `msg`). -/
inductive JsonValue where
  | bool (b : Bool)
  | str (s : String)
  deriving DecidableEq, Repr

/-- A parsed JSON object body: an association list from keys to values
(Python `dict` lookup is modelled by first match). -/
abbrev JsonObject : Type := List (String × JsonValue)

/-- Python truthiness of a `JsonValue`, as used by
`if response.json()["created"]:`. -/
def JsonValue.truthy : JsonValue → Bool
  | .bool b => b
  | .str s => s ≠ ""

/-- An HTTP response as seen through the `requests` `Response` object:
status code, reason phrase, and the result of `response.json()` (`none`
when the body is not parseable JSON). -/
structure HttpResponse where
  status : Nat
  reason : String
  json : Option JsonObject
  deriving DecidableEq, Repr

/-- Result of `session.post`: either a `requests.RequestException` during
transport, or a response object. -/
inductive HttpResult where
  | requestException
  | response (r : HttpResponse)
  deriving DecidableEq, Repr

/-- Injected environment: everything the command obtains from outside its
own code.  `checkConfigOk`/`checkConfigMsg` model the external
`check_config()` helper from `zerver.lib.management` (not part of the core:
it either returns or raises a `CommandError` with some message);
`consentInput` is what `input()` would return; `newKey` is what
`django.utils.crypto.get_random_string(64)` would return (its contract is
that the result has exactly 64 characters); `httpResult` is the outcome of
`session.post`; `persistOk` tells whether the `crudini` subprocess exits
with status 0. -/
structure Env where
  checkConfigOk : Bool
  checkConfigMsg : String
  consentInput : String
  newKey : String
  httpResult : HttpResult
  persistOk : Bool
  deriving DecidableEq, Repr

/-- How the Python call to `handle` terminates. -/
inductive Outcome where
  /-- `handle` returns `None` normally (zero exit). -/
  | ok
  /-- a `CommandError` with the given message is raised (clean fatal error). -/
  | commandError (msg : String)
  /-- the original `requests.HTTPError` is re-raised (status and reason
  phrase preserved). -/
  | httpError (status : Nat) (reason : String)
  /-- an uncaught `KeyError` on the given dictionary key. -/
  | keyError (key : String)
  /-- an uncaught `TypeError` (string concatenation with a non-string). -/
  | typeError
  /-- an uncaught JSON decode error from `response.json()` on the success
  path. -/
  | jsonDecodeError
  /-- an uncaught `subprocess.CalledProcessError` from the `crudini` call. -/
  | calledProcessError
  deriving DecidableEq, Repr

/-- Observable events of one invocation, in order of occurrence. -/
inductive Event where
  /-- the fixed metadata-disclosure text is printed. -/
  | disclosure
  /-- `input()` is called to read the interactive consent line. -/
  | prompt
  /-- the registration POST is attempted on the given URL with the given
  payload. -/
  | networkPost (url : String) (req : List (String × String))
  /-- the first-time-registration success message is printed. -/
  | printCreatedSuccess
  /-- the `Success! Updating <file> with the new key...` progress line is
  printed. -/
  | printUpdatingSecrets
  /-- the `crudini --set <file> <section> <key> <value>` subprocess is
  invoked to persist the rotated key. -/
  | persistCall (file sect key value : String)
  /-- the `registration successfully updated` confirmation is printed. -/
  | printUpdatedSuccess
  deriving DecidableEq, Repr

/-- Result of one invocation: outcome, event trace, final settings. -/
structure RunResult where
  outcome : Outcome
  trace : List Event
  finalSettings : Settings
  deriving DecidableEq, Repr

/-- Module-level `SECRETS_FILENAME`, chosen by `settings.DEVELOPMENT`. -/
def SECRETS_FILENAME (development : Bool) : String :=
  if development then "zproject/dev-secrets.conf" else "/etc/zulip/zulip-secrets.conf"

/-- The `request` dict literal built in `handle`, as an ordered key/value
list (`new_org_key` is appended only under `--rotate-key`). -/
def buildRequest (s : Settings) (o : Options) (newKey : String) : List (String × String) :=
  [("zulip_org_id", s.ZULIP_ORG_ID),
   ("zulip_org_key", s.ZULIP_ORG_KEY),
   ("hostname", s.EXTERNAL_HOST),
   ("contact_email", s.ZULIP_ADMINISTRATOR)] ++
  (if o.rotate_key then [("new_org_key", newKey)] else [])

/-- Whether `requests.Response.raise_for_status` raises an `HTTPError`:
exactly for client-error (4xx) and server-error (5xx) status codes. -/
def raiseForStatusRaises (status : Nat) : Bool :=
  (400 ≤ status && status < 500) || (500 ≤ status && status < 600)

/-- Lookup of a key in a parsed JSON object, modelling Python `dict[key]`
(`none` means a `KeyError`). -/
def JsonObject.get (d : JsonObject) (key : String) : Option JsonValue :=
  List.lookup key d

/-- Embedding of `Command._request_push_notification_bouncer_url` together
with the code of `handle` that consumes its response (the `created` branch,
key persistence and the final prints).  `u` is the resolved
`PUSH_NOTIFICATION_BOUNCER_URL`, `req` the payload, `evs` the events
accumulated so far. -/
def doRequest (s : Settings) (u : String) (req : List (String × String))
    (o : Options) (env : Env) (evs : List Event) : Outcome × List Event :=
  let registration_url := u ++ "/api/v1/remotes/server/register"
  let evs := evs ++ [Event.networkPost registration_url req]
  match env.httpResult with
  | .requestException =>
      (.commandError ("Network error connecting to push notifications service (" ++ u ++ ")"), evs)
  | .response r =>
      if raiseForStatusRaises r.status then
        match r.json with
        | none => (.httpError r.status r.reason, evs)
        | some content_dict =>
            match content_dict.get "msg" with
            | none => (.keyError "msg", evs)
            | some (.str m) => (.commandError ("Error: " ++ m), evs)
            | some (.bool _) => (.typeError, evs)
      else
        match r.json with
        | none => (.jsonDecodeError, evs)
        | some body =>
            match body.get "created" with
            | none => (.keyError "created", evs)
            | some v =>
                if v.truthy then
                  (.ok, evs ++ [Event.printCreatedSuccess])
                else
                  if o.rotate_key then
                    match List.lookup "new_org_key" req with
                    | none => (.keyError "new_org_key", evs ++ [Event.printUpdatingSecrets])
                    | some k =>
                        let evs := evs ++ [Event.printUpdatingSecrets,
                          Event.persistCall (SECRETS_FILENAME s.DEVELOPMENT) "secrets" "zulip_org_key" k]
                        if env.persistOk then (.ok, evs ++ [Event.printUpdatedSuccess])
                        else (.calledProcessError, evs)
                  else (.ok, evs ++ [Event.printUpdatedSuccess])

/-- The part of `handle` after configuration resolution: build the request,
print the disclosure, run the consent gate, then perform the request.  `s`
already carries the resolved bouncer URL `u`. -/
def afterConfig (s : Settings) (u : String) (o : Options) (env : Env) :
    Outcome × List Event :=
  let req := buildRequest s o env.newKey
  let evs := [Event.disclosure]
  if o.agree_to_terms_of_service = false ∧ o.rotate_key = false then
    let evs := evs ++ [Event.prompt]
    if env.consentInput.toLower = "y" ∨ env.consentInput.toLower = "" ∨
        env.consentInput.toLower = "yes" then
      doRequest s u req o env evs
    else
      (.ok, evs)
  else
    doRequest s u req o env evs

/-- Embedding of `Command.handle`: the `check_config` call (production
only), the three configuration checks, the development-mode defaulting
(and mutation) of `PUSH_NOTIFICATION_BOUNCER_URL`, then the rest of the
command. -/
def handle (s : Settings) (o : Options) (env : Env) : RunResult :=
  if s.DEVELOPMENT = false ∧ env.checkConfigOk = false then
    ⟨.commandError env.checkConfigMsg, [], s⟩
  else if s.ZULIP_ORG_ID = "" then
    ⟨.commandError "Missing zulip_org_id; run scripts/setup/generate_secrets.py to generate.", [], s⟩
  else if s.ZULIP_ORG_KEY = "" then
    ⟨.commandError "Missing zulip_org_key; run scripts/setup/generate_secrets.py to generate.", [], s⟩
  else
    match s.PUSH_NOTIFICATION_BOUNCER_URL with
    | none =>
        if s.DEVELOPMENT then
          let u := s.EXTERNAL_URI_SCHEME ++ s.EXTERNAL_HOST
          let s' := { s with PUSH_NOTIFICATION_BOUNCER_URL := some u }
          let r := afterConfig s' u o env
          ⟨r.1, r.2, s'⟩
        else
          ⟨.commandError ("Please uncomment PUSH_NOTIFICATION_BOUNCER_URL " ++
            "in /etc/zulip/settings.py (remove the \x27#\x27)"), [], s⟩
    | some u =>
        let r := afterConfig s u o env
        ⟨r.1, r.2, s⟩

/-! ## Basic lemmas about the embedding -/

/-- The registration POST is recorded on every path through `doRequest`,
whatever the transport or response turns out to be. -/
lemma doRequest_post_mem (s : Settings) (u : String) (req : List (String × String))
    (o : Options) (env : Env) (evs : List Event) :
    Event.networkPost (u ++ "/api/v1/remotes/server/register") req ∈
      (doRequest s u req o env evs).2 := by
  unfold doRequest
  repeat' split
  all_goals simp [List.mem_append]

/-- Every event produced by `doRequest` is either inherited from `evs`, the
POST itself, or one of the post-response prints / the persistence call. -/
lemma doRequest_mem_cases (s : Settings) (u : String) (req : List (String × String))
    (o : Options) (env : Env) (evs : List Event) (e : Event)
    (he : e ∈ (doRequest s u req o env evs).2) :
    e ∈ evs ∨ e = Event.networkPost (u ++ "/api/v1/remotes/server/register") req ∨
    e = Event.printCreatedSuccess ∨ e = Event.printUpdatingSecrets ∨
    (∃ k, e = Event.persistCall (SECRETS_FILENAME s.DEVELOPMENT) "secrets" "zulip_org_key" k) ∨
    e = Event.printUpdatedSuccess := by
  unfold doRequest at he
  repeat' split at he
  all_goals simp [List.mem_append] at he
  all_goals tauto

/-- The outcome of `doRequest` does not depend on the previously
accumulated events. -/
lemma doRequest_fst (s : Settings) (u : String) (req : List (String × String))
    (o : Options) (env : Env) (evs evs' : List Event) :
    (doRequest s u req o env evs).1 = (doRequest s u req o env evs').1 := by
  unfold doRequest
  repeat' split
  all_goals rfl

/-- With a configured bouncer URL, passing `check_config` and non-empty
secrets, `handle` runs the post-configuration code on the unchanged
settings. -/
lemma handle_some_url (s : Settings) (o : Options) (env : Env) (u : String)
    (hcc : ¬(s.DEVELOPMENT = false ∧ env.checkConfigOk = false)) (h1 : s.ZULIP_ORG_ID ≠ "")
    (h2 : s.ZULIP_ORG_KEY ≠ "") (hu : s.PUSH_NOTIFICATION_BOUNCER_URL = some u) :
    handle s o env =
      ⟨(afterConfig s u o env).1, (afterConfig s u o env).2, s⟩ := by
  unfold handle
  simp [hcc, h1, h2, hu]

/-- The settings as mutated by the development-mode defaulting of the
bouncer URL (`settings.PUSH_NOTIFICATION_BOUNCER_URL = EXTERNAL_URI_SCHEME
+ EXTERNAL_HOST`). -/
def devDefault (s : Settings) : Settings :=
  { s with PUSH_NOTIFICATION_BOUNCER_URL := some (s.EXTERNAL_URI_SCHEME ++ s.EXTERNAL_HOST) }

/-- In development with no configured bouncer URL and non-empty secrets,
`handle` defaults the URL (mutating the settings) and runs the rest on the
mutated settings. -/
lemma handle_dev_default_url (s : Settings) (o : Options) (env : Env)
    (hd : s.DEVELOPMENT = true) (h1 : s.ZULIP_ORG_ID ≠ "")
    (h2 : s.ZULIP_ORG_KEY ≠ "") (hu : s.PUSH_NOTIFICATION_BOUNCER_URL = none) :
    handle s o env =
      ⟨(afterConfig (devDefault s) (s.EXTERNAL_URI_SCHEME ++ s.EXTERNAL_HOST) o env).1,
        (afterConfig (devDefault s) (s.EXTERNAL_URI_SCHEME ++ s.EXTERNAL_HOST) o env).2,
        devDefault s⟩ := by
  unfold handle devDefault
  simp [hd, h1, h2, hu]

/-- When either flag is set the consent gate is skipped: no prompt, the
request is performed right after the disclosure. -/
lemma afterConfig_no_prompt (s : Settings) (u : String) (o : Options) (env : Env)
    (hgate : o.agree_to_terms_of_service = true ∨ o.rotate_key = true) :
    afterConfig s u o env =
      doRequest s u (buildRequest s o env.newKey) o env [Event.disclosure] := by
  unfold afterConfig
  rcases hgate with h | h <;> simp [h]

/-- With both flags unset and an affirmative consent line, the prompt is
recorded and the request is performed. -/
lemma afterConfig_prompt_accept (s : Settings) (u : String) (o : Options) (env : Env)
    (hflags : o.agree_to_terms_of_service = false ∧ o.rotate_key = false)
    (hacc : env.consentInput.toLower = "y" ∨ env.consentInput.toLower = "" ∨
      env.consentInput.toLower = "yes") :
    afterConfig s u o env =
      doRequest s u (buildRequest s o env.newKey) o env
        [Event.disclosure, Event.prompt] := by
  unfold afterConfig
  simp [hflags.1, hflags.2, hacc]

/-- With both flags unset and a non-affirmative consent line, the command
returns normally right after the prompt. -/
lemma afterConfig_prompt_decline (s : Settings) (u : String) (o : Options) (env : Env)
    (hflags : o.agree_to_terms_of_service = false ∧ o.rotate_key = false)
    (hdec : ¬(env.consentInput.toLower = "y" ∨ env.consentInput.toLower = "" ∨
      env.consentInput.toLower = "yes")) :
    afterConfig s u o env = (.ok, [Event.disclosure, Event.prompt]) := by
  push_neg at hdec
  unfold afterConfig
  simp [hflags.1, hflags.2, hdec.1, hdec.2.1, hdec.2.2]

/-- Under `--rotate-key` the payload carries `new_org_key` with the freshly
drawn random string. -/
lemma lookup_new_org_key_rotate (s : Settings) (o : Options) (k : String)
    (h : o.rotate_key = true) :
    List.lookup "new_org_key" (buildRequest s o k) = some k := by
  simp [buildRequest, h, List.lookup]

/-- Without `--rotate-key` the payload has no `new_org_key` entry. -/
lemma lookup_new_org_key_no_rotate (s : Settings) (o : Options) (k : String)
    (h : o.rotate_key = false) :
    List.lookup "new_org_key" (buildRequest s o k) = none := by
  simp [buildRequest, h, List.lookup]

/-- The payload does not depend on the bouncer URL field of the settings. -/
lemma buildRequest_url_irrelevant (s : Settings) (o : Options) (k : String) (x : Option String) :
    buildRequest { s with PUSH_NOTIFICATION_BOUNCER_URL := x } o k = buildRequest s o k := rfl

/-- No new `prompt` event can appear in a `doRequest` trace. -/
lemma doRequest_no_new_prompt (s : Settings) (u : String) (req : List (String × String))
    (o : Options) (env : Env) (evs : List Event) (h : Event.prompt ∉ evs) :
    Event.prompt ∉ (doRequest s u req o env evs).2 := by
  intro hmem
  rcases doRequest_mem_cases s u req o env evs _ hmem with h0 | h0 | h0 | h0 | ⟨k, h0⟩ | h0 <;>
    simp_all

/-! ## Concrete fixtures used by witnesses and counterexamples -/

/-- A fixed 64-character string standing for one possible value of
`get_random_string(64)`. -/
def K64 : String :=
  "0123456789abcdef0123456789abcdef0123456789abcdef0123456789abcdef"

/-- A well-formed production configuration. -/
def prodSettings : Settings :=
  { DEVELOPMENT := false
    ZULIP_ORG_ID := "org-3918"
    ZULIP_ORG_KEY := "current-org-key"
    PUSH_NOTIFICATION_BOUNCER_URL := some "https://push.example.com"
    EXTERNAL_URI_SCHEME := "https://"
    EXTERNAL_HOST := "zulip.example.com"
    ZULIP_ADMINISTRATOR := "admin@zulip.example.com" }

/-- A successful first-time-registration response. -/
def createdTrueResponse : HttpResponse :=
  ⟨200, "OK", some [("created", JsonValue.bool true)]⟩

/-- A successful already-registered (update) response. -/
def createdFalseResponse : HttpResponse :=
  ⟨200, "OK", some [("created", JsonValue.bool false)]⟩

/-- A baseline environment: `check_config` passes, affirmative consent,
fresh key `K64`, first-time success response, persistence succeeds. -/
def baseEnv : Env :=
  { checkConfigOk := true
    checkConfigMsg := "Error checking configuration"
    consentInput := "y"
    newKey := K64
    httpResult := .response createdTrueResponse
    persistOk := true }

/-! ## Claim C1 -/

/-- C1 (counterexample): with an *empty-string* bouncer URL in a production
configuration, the command does not fail with a configuration error — it
proceeds and sends the registration POST (to the URL built from the empty
base). -/
theorem empty_bouncer_url_not_rejected :
    (handle { prodSettings with PUSH_NOTIFICATION_BOUNCER_URL := some "" }
        ⟨true, false⟩ baseEnv).outcome = .ok ∧
    Event.networkPost "/api/v1/remotes/server/register"
        (buildRequest { prodSettings with PUSH_NOTIFICATION_BOUNCER_URL := some "" }
          ⟨true, false⟩ K64) ∈
      (handle { prodSettings with PUSH_NOTIFICATION_BOUNCER_URL := some "" }
        ⟨true, false⟩ baseEnv).trace := by
  decide

/-- C1 (amended): if the org id is empty, the org key is empty, or the
bouncer URL is absent (`None`) in a non-development configuration, the
invocation fails with a fatal `CommandError` and its trace is empty — in
particular the registration POST is never attempted. -/
theorem missing_config_fatal_before_network (s : Settings) (o : Options) (env : Env)
    (hmiss : s.ZULIP_ORG_ID = "" ∨ s.ZULIP_ORG_KEY = "" ∨
      (s.PUSH_NOTIFICATION_BOUNCER_URL = none ∧ s.DEVELOPMENT = false)) :
    (∃ msg, (handle s o env).outcome = .commandError msg) ∧
    (handle s o env).trace = [] := by
  unfold handle
  repeat' split
  all_goals simp_all

/-- C1 (witness): the amended theorem applied to a concrete production
configuration with an absent bouncer URL. -/
theorem missing_config_fatal_before_network_checked :
    (∃ msg, (handle { prodSettings with PUSH_NOTIFICATION_BOUNCER_URL := none }
        ⟨true, false⟩ baseEnv).outcome = .commandError msg) ∧
    (handle { prodSettings with PUSH_NOTIFICATION_BOUNCER_URL := none }
        ⟨true, false⟩ baseEnv).trace = [] :=
  missing_config_fatal_before_network _ _ _ (Or.inr (Or.inr ⟨rfl, rfl⟩))

/-! ## Claim C7 -/

/-- C7: whenever `--rotate-key` or `--agree_to_terms_of_service` is set,
the interactive consent prompt is never read, on any configuration and any
environment. -/
theorem flags_skip_prompt (s : Settings) (o : Options) (env : Env)
    (hflag : o.agree_to_terms_of_service = true ∨ o.rotate_key = true) :
    Event.prompt ∉ (handle s o env).trace := by
  by_cases hcc : s.DEVELOPMENT = false ∧ env.checkConfigOk = false
  · simp [handle, hcc]
  · by_cases h1 : s.ZULIP_ORG_ID = ""
    · simp [handle, hcc, h1]
    · by_cases h2 : s.ZULIP_ORG_KEY = ""
      · simp [handle, hcc, h1, h2]
      · rcases hu : s.PUSH_NOTIFICATION_BOUNCER_URL with _ | u
        · by_cases hd : s.DEVELOPMENT = true
          · rw [handle_dev_default_url s o env hd h1 h2 hu]
            rw [show (⟨(afterConfig (devDefault s) (s.EXTERNAL_URI_SCHEME ++ s.EXTERNAL_HOST) o env).1,
                (afterConfig (devDefault s) (s.EXTERNAL_URI_SCHEME ++ s.EXTERNAL_HOST) o env).2,
                devDefault s⟩ : RunResult).trace =
              (afterConfig (devDefault s) (s.EXTERNAL_URI_SCHEME ++ s.EXTERNAL_HOST) o env).2 from rfl]
            rw [afterConfig_no_prompt _ _ _ _ hflag]
            exact doRequest_no_new_prompt _ _ _ _ _ _ (by simp)
          · simp only [Bool.not_eq_true] at hd
            by_cases hco : env.checkConfigOk = false
            · exact absurd ⟨hd, hco⟩ hcc
            · simp [handle, h1, h2, hu, hd, hco]
        · rw [handle_some_url s o env u hcc h1 h2 hu]
          rw [show (⟨(afterConfig s u o env).1, (afterConfig s u o env).2, s⟩ : RunResult).trace =
            (afterConfig s u o env).2 from rfl]
          rw [afterConfig_no_prompt _ _ _ _ hflag]
          exact doRequest_no_new_prompt _ _ _ _ _ _ (by simp)

/-- C7 (witness): the theorem applied to a concrete `--rotate-key` run. -/
theorem flags_skip_prompt_checked :
    Event.prompt ∉ (handle prodSettings ⟨false, true⟩ baseEnv).trace :=
  flags_skip_prompt prodSettings ⟨false, true⟩ baseEnv (Or.inr rfl)

/-! ## Claim C2 -/

/-- C2: with both flags unset (so the gate runs) on a well-formed
configuration, a consent line whose lowercased form is `""`, `"y"` or
`"yes"` lets the registration POST be sent, while any other line makes the
invocation return normally right after the prompt, with no error and no
network request. -/
theorem consent_gate_controls_network (s : Settings) (o : Options) (env : Env) (u : String)
    (hflags : o.agree_to_terms_of_service = false ∧ o.rotate_key = false)
    (hcc : ¬(s.DEVELOPMENT = false ∧ env.checkConfigOk = false))
    (h1 : s.ZULIP_ORG_ID ≠ "") (h2 : s.ZULIP_ORG_KEY ≠ "")
    (hu : s.PUSH_NOTIFICATION_BOUNCER_URL = some u) :
    (env.consentInput.toLower = "" ∨ env.consentInput.toLower = "y" ∨
        env.consentInput.toLower = "yes" →
      Event.networkPost (u ++ "/api/v1/remotes/server/register")
          (buildRequest s o env.newKey) ∈ (handle s o env).trace) ∧
    (¬(env.consentInput.toLower = "" ∨ env.consentInput.toLower = "y" ∨
        env.consentInput.toLower = "yes") →
      (handle s o env).outcome = .ok ∧
      (handle s o env).trace = [Event.disclosure, Event.prompt]) := by
  rw [handle_some_url s o env u hcc h1 h2 hu]
  constructor
  · intro hacc
    rw [show (⟨(afterConfig s u o env).1, (afterConfig s u o env).2, s⟩ : RunResult).trace =
      (afterConfig s u o env).2 from rfl]
    rw [afterConfig_prompt_accept s u o env hflags (by tauto)]
    exact doRequest_post_mem _ _ _ _ _ _
  · intro hdec
    have hd : afterConfig s u o env = (.ok, [Event.disclosure, Event.prompt]) :=
      afterConfig_prompt_decline s u o env hflags (by tauto)
    constructor
    · rw [show (⟨(afterConfig s u o env).1, (afterConfig s u o env).2, s⟩ : RunResult).outcome =
        (afterConfig s u o env).1 from rfl, hd]
    · rw [show (⟨(afterConfig s u o env).1, (afterConfig s u o env).2, s⟩ : RunResult).trace =
        (afterConfig s u o env).2 from rfl, hd]

/-- C2 (witness): the theorem applied to a concrete gated run with consent
line `"YES"`. -/
theorem consent_gate_controls_network_checked :
    ("YES".toLower = "" ∨ "YES".toLower = "y" ∨ "YES".toLower = "yes" →
      Event.networkPost "https://push.example.com/api/v1/remotes/server/register"
          (buildRequest prodSettings ⟨false, false⟩ K64) ∈
        (handle prodSettings ⟨false, false⟩ { baseEnv with consentInput := "YES" }).trace) ∧
    (¬("YES".toLower = "" ∨ "YES".toLower = "y" ∨ "YES".toLower = "yes") →
      (handle prodSettings ⟨false, false⟩ { baseEnv with consentInput := "YES" }).outcome = .ok ∧
      (handle prodSettings ⟨false, false⟩ { baseEnv with consentInput := "YES" }).trace =
        [Event.disclosure, Event.prompt]) :=
  consent_gate_controls_network prodSettings ⟨false, false⟩
    { baseEnv with consentInput := "YES" } "https://push.example.com"
    ⟨rfl, rfl⟩ (by decide) (by decide) (by decide) rfl

/-! ## Claim C3 -/

/-- C3: on a `--rotate-key` run whose response is a non-error status with
body `{"created": false}`, the `crudini` persistence call is made with the
fresh key, strictly before the final success confirmation; if the
persistence subprocess fails, the invocation aborts with an uncaught
`CalledProcessError` and the success confirmation is never printed. -/
theorem rotation_update_persists_before_success (s : Settings) (o : Options) (env : Env)
    (u : String) (resp : HttpResponse) (body : JsonObject)
    (hrot : o.rotate_key = true)
    (hcc : ¬(s.DEVELOPMENT = false ∧ env.checkConfigOk = false))
    (h1 : s.ZULIP_ORG_ID ≠ "") (h2 : s.ZULIP_ORG_KEY ≠ "")
    (hu : s.PUSH_NOTIFICATION_BOUNCER_URL = some u)
    (hr : env.httpResult = .response resp)
    (hraise : raiseForStatusRaises resp.status = false)
    (hjson : resp.json = some body)
    (hcreated : body.get "created" = some (.bool false)) :
    (env.persistOk = true →
      (handle s o env).outcome = .ok ∧
      (handle s o env).trace =
        [Event.disclosure,
         Event.networkPost (u ++ "/api/v1/remotes/server/register")
           (buildRequest s o env.newKey),
         Event.printUpdatingSecrets,
         Event.persistCall (SECRETS_FILENAME s.DEVELOPMENT) "secrets" "zulip_org_key"
           env.newKey,
         Event.printUpdatedSuccess]) ∧
    (env.persistOk = false →
      (handle s o env).outcome = .calledProcessError ∧
      Event.printUpdatedSuccess ∉ (handle s o env).trace) := by
  rw [handle_some_url s o env u hcc h1 h2 hu]
  rw [show (⟨(afterConfig s u o env).1, (afterConfig s u o env).2, s⟩ : RunResult) =
    ⟨(afterConfig s u o env).1, (afterConfig s u o env).2, s⟩ from rfl]
  rw [afterConfig_no_prompt s u o env (Or.inr hrot)]
  unfold doRequest
  rw [hr]
  simp only [hraise, hjson, hcreated, hrot,
    lookup_new_org_key_rotate s o env.newKey hrot, JsonValue.truthy,
    Bool.false_eq_true, if_false, ite_false, ite_true]
  constructor
  · intro hp
    simp [hp]
  · intro hp
    simp [hp]

/-- Baseline environment whose response reports an existing registration
(`created == false`). -/
def createdFalseEnv : Env :=
  { baseEnv with httpResult := .response createdFalseResponse }

/-- C3 (witness): the theorem applied to a concrete rotation run against an
update (`created == false`) response, with persistence succeeding. -/
theorem rotation_update_persists_before_success_checked :
    ((createdFalseEnv).persistOk = true →
      (handle prodSettings ⟨false, true⟩ createdFalseEnv).outcome = .ok ∧
      (handle prodSettings ⟨false, true⟩ createdFalseEnv).trace =
        [Event.disclosure,
         Event.networkPost "https://push.example.com/api/v1/remotes/server/register"
           (buildRequest prodSettings ⟨false, true⟩ K64),
         Event.printUpdatingSecrets,
         Event.persistCall (SECRETS_FILENAME false) "secrets" "zulip_org_key" K64,
         Event.printUpdatedSuccess]) ∧
    ((createdFalseEnv).persistOk = false →
      (handle prodSettings ⟨false, true⟩ createdFalseEnv).outcome = .calledProcessError ∧
      Event.printUpdatedSuccess ∉ (handle prodSettings ⟨false, true⟩ createdFalseEnv).trace) :=
  rotation_update_persists_before_success prodSettings ⟨false, true⟩ createdFalseEnv
    "https://push.example.com" createdFalseResponse [("created", JsonValue.bool false)]
    rfl (by decide) (by decide) (by decide) rfl rfl (by decide) rfl rfl

/-! ## Claim C9 -/

/-- C9: on a `--rotate-key` run whose response is a non-error status with
body `{"created": true}`, the freshly generated key is in the sent payload,
yet the invocation just prints the plain first-time-registration success —
the trace shows no persistence call and no added warning of any kind. -/
theorem rotation_created_true_skips_persistence (s : Settings) (o : Options) (env : Env)
    (u : String) (resp : HttpResponse) (body : JsonObject)
    (hrot : o.rotate_key = true)
    (hcc : ¬(s.DEVELOPMENT = false ∧ env.checkConfigOk = false))
    (h1 : s.ZULIP_ORG_ID ≠ "") (h2 : s.ZULIP_ORG_KEY ≠ "")
    (hu : s.PUSH_NOTIFICATION_BOUNCER_URL = some u)
    (hr : env.httpResult = .response resp)
    (hraise : raiseForStatusRaises resp.status = false)
    (hjson : resp.json = some body)
    (hcreated : body.get "created" = some (.bool true)) :
    (handle s o env).outcome = .ok ∧
    (handle s o env).trace =
      [Event.disclosure,
       Event.networkPost (u ++ "/api/v1/remotes/server/register")
         (buildRequest s o env.newKey),
       Event.printCreatedSuccess] ∧
    List.lookup "new_org_key" (buildRequest s o env.newKey) = some env.newKey := by
  rw [handle_some_url s o env u hcc h1 h2 hu]
  rw [afterConfig_no_prompt s u o env (Or.inr hrot)]
  unfold doRequest
  rw [hr]
  simp [hraise, hjson, hcreated, JsonValue.truthy,
    lookup_new_org_key_rotate s o env.newKey hrot]

/-- C9 (witness): the theorem applied to a concrete rotation run against a
first-time (`created == true`) response. -/
theorem rotation_created_true_skips_persistence_checked :
    (handle prodSettings ⟨false, true⟩ baseEnv).outcome = .ok ∧
    (handle prodSettings ⟨false, true⟩ baseEnv).trace =
      [Event.disclosure,
       Event.networkPost "https://push.example.com/api/v1/remotes/server/register"
         (buildRequest prodSettings ⟨false, true⟩ K64),
       Event.printCreatedSuccess] ∧
    List.lookup "new_org_key" (buildRequest prodSettings ⟨false, true⟩ K64) = some K64 :=
  rotation_created_true_skips_persistence prodSettings ⟨false, true⟩ baseEnv
    "https://push.example.com" createdTrueResponse [("created", JsonValue.bool true)]
    rfl (by decide) (by decide) (by decide) rfl rfl (by decide) rfl rfl

/-! ## Claim C4 -/

/-- A 500 response carrying the JSON error body
`{"msg": "invalid org id"}`. -/
def msg500Response : HttpResponse :=
  ⟨500, "Internal Server Error", some [("msg", JsonValue.str "invalid org id")]⟩

/-- Baseline environment whose response is `msg500Response`. -/
def msg500Env : Env := { baseEnv with httpResult := .response msg500Response }

/-- C4 (counterexample): a 500 response with body
`{"msg": "invalid org id"}` is reported as `CommandError` with message
`Error: invalid org id` — not exactly the service-provided string
`invalid org id`. -/
theorem rejected_msg_not_reported_verbatim :
    (handle prodSettings ⟨true, false⟩ msg500Env).outcome =
      .commandError "Error: invalid org id" ∧
    (handle prodSettings ⟨true, false⟩ msg500Env).outcome ≠
      .commandError "invalid org id" := by
  decide

/-- C4 (amended): for every 4xx/5xx response whose body parses as JSON with
a string `msg` field, the invocation fails with a `CommandError` whose
message is exactly `"Error: "` followed by the service-provided string. -/
theorem rejected_with_msg_reports_prefixed_msg (s : Settings) (o : Options) (env : Env)
    (u : String) (resp : HttpResponse) (body : JsonObject) (m : String)
    (hgate : o.agree_to_terms_of_service = true ∨ o.rotate_key = true)
    (hcc : ¬(s.DEVELOPMENT = false ∧ env.checkConfigOk = false))
    (h1 : s.ZULIP_ORG_ID ≠ "") (h2 : s.ZULIP_ORG_KEY ≠ "")
    (hu : s.PUSH_NOTIFICATION_BOUNCER_URL = some u)
    (hr : env.httpResult = .response resp)
    (hraise : raiseForStatusRaises resp.status = true)
    (hjson : resp.json = some body)
    (hmsg : body.get "msg" = some (.str m)) :
    (handle s o env).outcome = .commandError ("Error: " ++ m) := by
  rw [handle_some_url s o env u hcc h1 h2 hu]
  rw [afterConfig_no_prompt s u o env hgate]
  unfold doRequest
  rw [hr]
  simp only [hraise, hjson, hmsg, ite_true, if_true]

/-- C4 (witness): the amended theorem applied to the concrete 500 response
with body `{"msg": "invalid org id"}`. -/
theorem rejected_with_msg_reports_prefixed_msg_checked :
    (handle prodSettings ⟨true, false⟩ msg500Env).outcome =
      .commandError ("Error: " ++ "invalid org id") :=
  rejected_with_msg_reports_prefixed_msg prodSettings ⟨true, false⟩ msg500Env
    "https://push.example.com" msg500Response
    [("msg", JsonValue.str "invalid org id")] "invalid org id"
    (Or.inl rfl) (by decide) (by decide) (by decide) rfl rfl (by decide) rfl rfl

/-! ## Claim C5 -/

/-- A 304 response (non-2xx, but not an error status for
`raise_for_status`) whose body is not parseable JSON. -/
def nonJson304Response : HttpResponse := ⟨304, "Not Modified", none⟩

/-- Baseline environment whose response is `nonJson304Response`. -/
def nonJson304Env : Env := { baseEnv with httpResult := .response nonJson304Response }

/-- C5 (counterexample): a non-2xx response outside the 4xx/5xx range
(here a 304) with a non-JSON body is *not* re-raised as the original HTTP
error — `raise_for_status` does not raise for it, so the command falls into
the success path and dies on an uncaught JSON decode error instead. -/
theorem non_json_304_not_reraised :
    (handle prodSettings ⟨true, false⟩ nonJson304Env).outcome = .jsonDecodeError ∧
    (handle prodSettings ⟨true, false⟩ nonJson304Env).outcome ≠
      .httpError 304 "Not Modified" := by
  decide

/-- C5 (amended): for every 4xx/5xx response whose body is not parseable
JSON, the original `HTTPError` is re-raised verbatim, preserving the status
code and reason phrase. -/
theorem non_json_error_body_reraises_http_error (s : Settings) (o : Options) (env : Env)
    (u : String) (resp : HttpResponse)
    (hgate : o.agree_to_terms_of_service = true ∨ o.rotate_key = true)
    (hcc : ¬(s.DEVELOPMENT = false ∧ env.checkConfigOk = false))
    (h1 : s.ZULIP_ORG_ID ≠ "") (h2 : s.ZULIP_ORG_KEY ≠ "")
    (hu : s.PUSH_NOTIFICATION_BOUNCER_URL = some u)
    (hr : env.httpResult = .response resp)
    (hraise : raiseForStatusRaises resp.status = true)
    (hjson : resp.json = none) :
    (handle s o env).outcome = .httpError resp.status resp.reason := by
  rw [handle_some_url s o env u hcc h1 h2 hu]
  rw [afterConfig_no_prompt s u o env hgate]
  unfold doRequest
  rw [hr]
  simp [hraise, hjson]

/-- A 500 response with an unparseable (non-JSON) body. -/
def nonJson500Response : HttpResponse := ⟨500, "Internal Server Error", none⟩

/-- Baseline environment whose response is `nonJson500Response`. -/
def nonJson500Env : Env := { baseEnv with httpResult := .response nonJson500Response }

/-- C5 (witness): the amended theorem applied to a concrete 500 response
with a non-JSON body. -/
theorem non_json_error_body_reraises_http_error_checked :
    (handle prodSettings ⟨true, false⟩ nonJson500Env).outcome =
      .httpError 500 "Internal Server Error" :=
  non_json_error_body_reraises_http_error prodSettings ⟨true, false⟩ nonJson500Env
    "https://push.example.com" nonJson500Response
    (Or.inl rfl) (by decide) (by decide) (by decide) rfl rfl (by decide) rfl

/-! ## Claim C10 -/

/-- A 304 response whose JSON body has a `created` field but no `msg`. -/
def created304Response : HttpResponse :=
  ⟨304, "Not Modified", some [("created", JsonValue.bool true)]⟩

/-- Baseline environment whose response is `created304Response`. -/
def created304Env : Env := { baseEnv with httpResult := .response created304Response }

/-- C10 (counterexample): a non-2xx response outside the 4xx/5xx range
(here a 304) with a parseable JSON body lacking `msg` does not raise a
`KeyError` at all — `raise_for_status` does not raise, the success path
reads `created` and the run terminates normally. -/
theorem non_2xx_without_msg_not_keyerror :
    (handle prodSettings ⟨true, false⟩ created304Env).outcome = .ok ∧
    (handle prodSettings ⟨true, false⟩ created304Env).outcome ≠ .keyError "msg" := by
  decide

/-- C10 (amended): for every 4xx/5xx response whose body parses as JSON
but has no `msg` key, the invocation dies with an uncaught `KeyError` on
`"msg"` — neither a `CommandError` with the service detail nor the
original HTTP error. -/
theorem error_body_without_msg_raises_keyerror (s : Settings) (o : Options) (env : Env)
    (u : String) (resp : HttpResponse) (body : JsonObject)
    (hgate : o.agree_to_terms_of_service = true ∨ o.rotate_key = true)
    (hcc : ¬(s.DEVELOPMENT = false ∧ env.checkConfigOk = false))
    (h1 : s.ZULIP_ORG_ID ≠ "") (h2 : s.ZULIP_ORG_KEY ≠ "")
    (hu : s.PUSH_NOTIFICATION_BOUNCER_URL = some u)
    (hr : env.httpResult = .response resp)
    (hraise : raiseForStatusRaises resp.status = true)
    (hjson : resp.json = some body)
    (hmsg : body.get "msg" = none) :
    (handle s o env).outcome = .keyError "msg" := by
  rw [handle_some_url s o env u hcc h1 h2 hu]
  rw [afterConfig_no_prompt s u o env hgate]
  unfold doRequest
  rw [hr]
  simp [hraise, hjson, hmsg]

/-- A 500 response whose JSON body has no `msg` key. -/
def noMsg500Response : HttpResponse :=
  ⟨500, "Internal Server Error", some [("code", JsonValue.str "X")]⟩

/-- Baseline environment whose response is `noMsg500Response`. -/
def noMsg500Env : Env := { baseEnv with httpResult := .response noMsg500Response }

/-- C10 (witness): the amended theorem applied to a concrete 500 response
whose JSON body has no `msg` key. -/
theorem error_body_without_msg_raises_keyerror_checked :
    (handle prodSettings ⟨true, false⟩ noMsg500Env).outcome = .keyError "msg" :=
  error_body_without_msg_raises_keyerror prodSettings ⟨true, false⟩ noMsg500Env
    "https://push.example.com" noMsg500Response [("code", JsonValue.str "X")]
    (Or.inl rfl) (by decide) (by decide) (by decide) rfl rfl (by decide) rfl rfl

/-! ## Claim C6 -/

/-- Any POST event recorded by the post-configuration code carries exactly
the payload built by `buildRequest` from the settings it was given. -/
lemma afterConfig_networkPost_payload (s : Settings) (u : String) (o : Options) (env : Env)
    (u' : String) (req' : List (String × String))
    (hmem : Event.networkPost u' req' ∈ (afterConfig s u o env).2) :
    req' = buildRequest s o env.newKey := by
  by_cases hflags : o.agree_to_terms_of_service = false ∧ o.rotate_key = false
  · by_cases hacc : env.consentInput.toLower = "y" ∨ env.consentInput.toLower = "" ∨
        env.consentInput.toLower = "yes"
    · rw [afterConfig_prompt_accept s u o env hflags hacc] at hmem
      rcases doRequest_mem_cases _ _ _ _ _ _ _ hmem with h | h | h | h | ⟨k, h⟩ | h <;>
        simp_all
    · rw [afterConfig_prompt_decline s u o env hflags hacc] at hmem
      simp_all
  · have hgate : o.agree_to_terms_of_service = true ∨ o.rotate_key = true := by
      cases ha : o.agree_to_terms_of_service <;> cases hb : o.rotate_key <;> simp_all
    rw [afterConfig_no_prompt s u o env hgate] at hmem
    rcases doRequest_mem_cases _ _ _ _ _ _ _ hmem with h | h | h | h | ⟨k, h⟩ | h <;>
      simp_all

/-- Any POST event recorded by a full invocation carries exactly the
payload built by `buildRequest` from the initial settings. -/
lemma handle_networkPost_payload (s : Settings) (o : Options) (env : Env)
    (u' : String) (req' : List (String × String))
    (hmem : Event.networkPost u' req' ∈ (handle s o env).trace) :
    req' = buildRequest s o env.newKey := by
  by_cases hcc : s.DEVELOPMENT = false ∧ env.checkConfigOk = false
  · simp [handle, hcc] at hmem
  · by_cases h1 : s.ZULIP_ORG_ID = ""
    · simp [handle, hcc, h1] at hmem
    · by_cases h2 : s.ZULIP_ORG_KEY = ""
      · simp [handle, hcc, h1, h2] at hmem
      · rcases hu : s.PUSH_NOTIFICATION_BOUNCER_URL with _ | u
        · by_cases hd : s.DEVELOPMENT = true
          · rw [handle_dev_default_url s o env hd h1 h2 hu] at hmem
            exact afterConfig_networkPost_payload _ _ _ _ _ _ hmem
          · simp only [Bool.not_eq_true] at hd
            by_cases hco : env.checkConfigOk = false
            · exact absurd ⟨hd, hco⟩ hcc
            · simp [handle, h1, h2, hu, hd, hco] at hmem
        · rw [handle_some_url s o env u hcc h1 h2 hu] at hmem
          exact afterConfig_networkPost_payload _ _ _ _ _ _ hmem

/-- C6 (amended): every registration POST an invocation sends carries
`new_org_key` exactly when `--rotate-key` was given, and then its value is
the string drawn from the random generator; under the generator's contract
(64 characters) that value has length at least 64.  (Distinctness from the
current `zulip_org_key` is not enforced by the code.) -/
theorem payload_new_org_key_presence (s : Settings) (o : Options) (env : Env)
    (u' : String) (req' : List (String × String))
    (hmem : Event.networkPost u' req' ∈ (handle s o env).trace) :
    List.lookup "new_org_key" req' =
      (if o.rotate_key then some env.newKey else none) ∧
    (env.newKey.length = 64 →
      ∀ k, List.lookup "new_org_key" req' = some k → 64 ≤ k.length) := by
  have hreq := handle_networkPost_payload s o env u' req' hmem
  subst hreq
  cases hrot : o.rotate_key
  · constructor
    · simp [lookup_new_org_key_no_rotate s o env.newKey hrot]
    · intro hlen k hk
      rw [lookup_new_org_key_no_rotate s o env.newKey hrot] at hk
      exact absurd hk (by simp)
  · constructor
    · simp [lookup_new_org_key_rotate s o env.newKey hrot]
    · intro hlen k hk
      rw [lookup_new_org_key_rotate s o env.newKey hrot] at hk
      cases hk
      omega

/-- C6 (witness): the amended theorem applied to the POST of a concrete
`--rotate-key` invocation. -/
theorem payload_new_org_key_presence_checked :
    List.lookup "new_org_key" (buildRequest prodSettings ⟨false, true⟩ K64) =
      (if (⟨false, true⟩ : Options).rotate_key then some baseEnv.newKey else none) ∧
    (baseEnv.newKey.length = 64 →
      ∀ k, List.lookup "new_org_key" (buildRequest prodSettings ⟨false, true⟩ K64) = some k →
        64 ≤ k.length) :=
  payload_new_org_key_presence prodSettings ⟨false, true⟩ baseEnv
    "https://push.example.com/api/v1/remotes/server/register"
    (buildRequest prodSettings ⟨false, true⟩ K64) (by decide)

/-- Settings whose current org key is the same 64-character string the
random generator happens to draw. -/
def collidingSettings : Settings := { prodSettings with ZULIP_ORG_KEY := K64 }

/-- C6 (counterexample): the code never checks the fresh key against the
current one; if the generator draws the current key, the POST carries a
`new_org_key` equal to `zulip_org_key`, refuting the claimed distinctness. -/
theorem new_org_key_can_equal_current_key :
    Event.networkPost "https://push.example.com/api/v1/remotes/server/register"
        (buildRequest collidingSettings ⟨false, true⟩ K64) ∈
      (handle collidingSettings ⟨false, true⟩ baseEnv).trace ∧
    List.lookup "new_org_key" (buildRequest collidingSettings ⟨false, true⟩ K64) =
      some collidingSettings.ZULIP_ORG_KEY ∧
    K64.length = 64 := by
  decide

/-! ## Claim C8 -/

/-- C8 (amended): the configuration is left untouched by every invocation,
with exactly one exception: in development mode with an absent bouncer URL
(and both secrets non-empty, so that the URL branch is reached), the
invocation overwrites `PUSH_NOTIFICATION_BOUNCER_URL` with
`EXTERNAL_URI_SCHEME ++ EXTERNAL_HOST`. -/
theorem settings_mutation_characterized (s : Settings) (o : Options) (env : Env) :
    (handle s o env).finalSettings =
      (if s.DEVELOPMENT = true ∧ s.PUSH_NOTIFICATION_BOUNCER_URL = none ∧
          s.ZULIP_ORG_ID ≠ "" ∧ s.ZULIP_ORG_KEY ≠ "" then devDefault s else s) := by
  by_cases hcc : s.DEVELOPMENT = false ∧ env.checkConfigOk = false
  · simp [handle, hcc, hcc.1]
  · by_cases h1 : s.ZULIP_ORG_ID = ""
    · simp [handle, hcc, h1]
    · by_cases h2 : s.ZULIP_ORG_KEY = ""
      · simp [handle, hcc, h1, h2]
      · rcases hu : s.PUSH_NOTIFICATION_BOUNCER_URL with _ | u
        · by_cases hd : s.DEVELOPMENT = true
          · rw [handle_dev_default_url s o env hd h1 h2 hu]
            simp [hd, hu, h1, h2]
          · simp only [Bool.not_eq_true] at hd
            by_cases hco : env.checkConfigOk = false
            · exact absurd ⟨hd, hco⟩ hcc
            · simp [handle, h1, h2, hu, hd, hco]
        · rw [handle_some_url s o env u hcc h1 h2 hu]
          simp [hu]

/-- C8 (counterexample): a development invocation with no configured
bouncer URL mutates the process-wide configuration, overwriting
`PUSH_NOTIFICATION_BOUNCER_URL`. -/
theorem dev_run_mutates_bouncer_url :
    (handle { prodSettings with DEVELOPMENT := true, PUSH_NOTIFICATION_BOUNCER_URL := none }
        ⟨true, false⟩ baseEnv).finalSettings ≠
      { prodSettings with DEVELOPMENT := true, PUSH_NOTIFICATION_BOUNCER_URL := none } ∧
    (handle { prodSettings with DEVELOPMENT := true, PUSH_NOTIFICATION_BOUNCER_URL := none }
        ⟨true, false⟩ baseEnv).finalSettings.PUSH_NOTIFICATION_BOUNCER_URL =
      some "https://zulip.example.com" := by
  decide
